import Mathlib

/-!
A shallow embedding of the Result<T, E> error-handling header of the
resultcpp repository (src/result.hpp, together with the later revisions of
the same header quoted in src/README.md), and proofs of the specified
properties of its operations.

Modelling conventions:
- A C++ union holds exactly one active member at a time, so the union
  `union { T value; E error; }` is embedded as the sum `T ⊕ E` of its
  active member.  Reading the inactive member is undefined behavior in
  C++ and is embedded as an instrumented read returning `none`
  (`Result.readValue` / `Result.readError`); an operation then returns
  `some` exactly when every union read it performs hits the live member.
- The error-presentation capability `Display<E>::print` writes to a
  diagnostic stream; its invocations are instrumented as a `List E`
  (the sequence of errors passed to it), returned alongside the value.
- Caller-supplied callbacks are pure Lean functions; their invocations
  are likewise instrumented as the list of arguments they received.
- `std::exit(1)` is embedded as the `FatalOutcome.exit` outcome carrying
  the exit code; a terminal that cannot exit has a return type with no
  such outcome.
-/

namespace ResultCpp

/-- The discriminant of Result<T, E> (src/result.hpp lines 16-19):
`enum class Tag { Ok, Err }`. -/
inductive Tag : Type where
  | Ok : Tag
  | Err : Tag
deriving DecidableEq

/-- Result<T, E> (src/result.hpp lines 14-34): a discriminant `tag` plus the
union `union { T value; E error; }`, embedded as the sum of its active
member (see the module comment). -/
structure Result (T E : Type) : Type where
  tag : Tag
  store : T ⊕ E
deriving DecidableEq

/-- Instrumented read of the union member `value`: `some` when `value` is
the active member, `none` (undefined behavior in the source) otherwise. -/
def Result.readValue {T E : Type} (r : Result T E) : Option T :=
  match r.store with
  | Sum.inl v => some v
  | Sum.inr _ => none

/-- Instrumented read of the union member `error`: `some` when `error` is
the active member, `none` (undefined behavior in the source) otherwise. -/
def Result.readError {T E : Type} (r : Result T E) : Option E :=
  match r.store with
  | Sum.inl _ => none
  | Sum.inr e => some e

/-- The success constructor `Ok<T, E>(val)` (src/result.hpp lines 36-42):
tag `Ok`, the union's active member is `value`. -/
def Ok {T E : Type} (val : T) : Result T E :=
  { tag := Tag.Ok, store := Sum.inl val }

/-- The error constructor `Err<T, E>(err)` (src/result.hpp lines 44-50):
tag `Err`, the union's active member is `error`. -/
def Err {T E : Type} (e : E) : Result T E :=
  { tag := Tag.Err, store := Sum.inr e }

/-- The storage invariant of the design (spec §3): the discriminant
identifies the live union member. -/
def Result.wellFormed {T E : Type} (r : Result T E) : Bool :=
  match r.tag, r.store with
  | Tag.Ok, Sum.inl _ => true
  | Tag.Err, Sum.inr _ => true
  | _, _ => false

/-- `map_err` (src/result.hpp lines 24-33): if the tag is `Ok`, rebuild an
`Ok` from `value`; otherwise rebuild an `Err` from `f(error)`.  The first
component records the arguments `f` received. -/
def Result.map_err {T E F : Type} (r : Result T E) (f : E → F) :
    Option (List E × Result T F) :=
  if r.tag = Tag.Ok then
    (r.readValue).map fun v => ([], Ok v)
  else
    (r.readError).map fun e => ([e], Err (f e))

/-- `map` (the later revision of the header quoted in src/README.md,
lines 333-341): if the tag is `Ok`, return `ok<U, E>(f(value))`; otherwise
return `err<U, E>(error)` without invoking `f`.  The first component
records the arguments `f` received. -/
def Result.map {T E U : Type} (r : Result T E) (f : T → U) :
    Option (List T × Result U E) :=
  if r.tag = Tag.Ok then
    (r.readValue).map fun v => ([v], Ok (f v))
  else
    (r.readError).map fun e => ([], Err e)

/-- `and_then` (the later revision of the header quoted in src/README.md,
lines 353-360): if the tag is `Ok`, return `f(value)` directly; otherwise
return `err<U, E>(error)` without invoking `f`.  The first component
records the arguments `f` received. -/
def Result.and_then {T E U : Type} (r : Result T E) (f : T → Result U E) :
    Option (List T × Result U E) :=
  if r.tag = Tag.Ok then
    (r.readValue).map fun v => ([v], f v)
  else
    (r.readError).map fun e => ([], Err e)

/-- `ok_or(ptr, err)` (src/result.hpp lines 84-91): a non-null pointer
becomes `Ok(ptr)`, a null pointer becomes `Err(err)`.  The nullable
handle is embedded as `Option P` (`none` = nullptr), and `ptr.isSome`
embeds `ptr != nullptr`. -/
def ok_or {P E : Type} (ptr : Option P) (e : E) : Result (Option P) E :=
  if ptr.isSome then Ok ptr else Err e

/-- How a terminal operation that may call `std::exit` ends: either it
returns a value, or the process exits with a code.  In both constructors
`prints` is the sequence of errors passed to `Display<E>::print` before
that point. -/
inductive FatalOutcome (T E : Type) : Type where
  | ret (prints : List E) (v : T)
  | exit (prints : List E) (code : Nat)
deriving DecidableEq

/-- The fatal terminal `unwrap` (src/result.hpp lines 100-109): on `Err`
it calls `Display<E>::print(res.error)` and then `std::exit(1)`; on `Ok`
it returns `res.value` having printed nothing. -/
def unwrap {T E : Type} (res : Result T E) : Option (FatalOutcome T E) :=
  if res.tag = Tag.Err then
    (res.readError).map fun e => FatalOutcome.exit [e] 1
  else
    (res.readValue).map fun v => FatalOutcome.ret [] v

/-- The non-fatal terminal `unwrap_or` (src/result.hpp lines 120-129): on
`Err` it calls `Display<E>::print(res.error)` and then returns the
caller's `fallback`; on `Ok` it returns `res.value` having printed
nothing.  The first component is the print trace. -/
def unwrap_or {T E : Type} (res : Result T E) (fallback : T) :
    Option (List E × T) :=
  if res.tag = Tag.Err then
    (res.readError).map fun e => ([e], fallback)
  else
    (res.readValue).map fun v => ([], v)

/-- The non-fatal terminal `unwrap_or_else` (src/result.hpp lines
139-149): on `Err` it calls `Display<E>::print(res.error)` and then
returns `on_error(res.error)`; on `Ok` it returns `res.value` without
printing or invoking the callback.  The first component is the print
trace, the second the list of arguments `on_error` received. -/
def unwrap_or_else {T E : Type} (res : Result T E) (on_error : E → T) :
    Option (List E × List E × T) :=
  if res.tag = Tag.Err then
    (res.readError).map fun e => ([e], [e], on_error e)
  else
    (res.readValue).map fun v => ([], [], v)

/-- Modelled from the spec: the exhaustive `match(result, on_ok, on_err)`
construct is called in the repository's tests and examples and listed in
its README ("`match<T, E, OnOk, OnErr>(result, onOk, onErr)` match a
result"), but its definition is not among the repository's source files.
Per the spec (§4.3) it "exhaustively dispatches to exactly one of the two
handlers based on the discriminant and returns that handler's result".
The two lists record the arguments `on_ok` and `on_err` received. -/
def matchR {T E R : Type} (r : Result T E) (on_ok : T → R) (on_err : E → R) :
    Option (List T × List E × R) :=
  if r.tag = Tag.Ok then
    (r.readValue).map fun v => ([v], [], on_ok v)
  else
    (r.readError).map fun e => ([], [e], on_err e)

/-- The hand-written no-payload specialization `Result<void, E>`
(src/result.hpp lines 52-66): a discriminant plus a plain `E error`
field (no union, the field exists in both states). -/
structure VoidResult (E : Type) : Type where
  tag : Tag
  error : E
deriving DecidableEq

/-- `Ok<E>()` for the no-payload specialization (src/result.hpp lines
68-74): tag `Ok`, with the error field value-initialized (`{}` in the
source), embedded as `default`. -/
def VoidResult.Ok {E : Type} [Inhabited E] : VoidResult E :=
  { tag := Tag.Ok, error := default }

/-- `Err<E>(err)` for the no-payload specialization (src/result.hpp
lines 76-82). -/
def VoidResult.Err {E : Type} (e : E) : VoidResult E :=
  { tag := Tag.Err, error := e }

/-- `map_err` of the no-payload specialization (src/result.hpp lines
56-65): on `Err` return `Err(f(error))`, otherwise return `Ok()`.  The
first component records the arguments `f` received. -/
def VoidResult.map_err {E F : Type} [Inhabited F] (r : VoidResult E)
    (f : E → F) : List E × VoidResult F :=
  if r.tag = Tag.Err then ([r.error], VoidResult.Err (f r.error))
  else ([], VoidResult.Ok)

/-- The fatal `unwrap` overload for the no-payload specialization
(src/result.hpp lines 111-118): on `Err` it prints the error and calls
`std::exit(1)`; on `Ok` it returns (nothing) having printed nothing. -/
def VoidResult.unwrap {E : Type} (res : VoidResult E) : FatalOutcome Unit E :=
  if res.tag = Tag.Err then FatalOutcome.exit [res.error] 1
  else FatalOutcome.ret [] ()

/-- The non-fatal `unwrap_or` overload for the no-payload specialization
(src/result.hpp lines 130-137): its second parameter is an ignored
`void*` (embedded as `Unit`); on `Err` it only prints the error. -/
def VoidResult.unwrap_or {E : Type} (res : VoidResult E) (_ignored : Unit) :
    List E × Unit :=
  if res.tag = Tag.Err then ([res.error], ()) else ([], ())

/-- The non-fatal `unwrap_or_else` overload for the no-payload
specialization (src/result.hpp lines 151-159): on `Err` it prints the
error and invokes `on_error(res.error)`. -/
def VoidResult.unwrap_or_else {E : Type} (res : VoidResult E)
    (on_error : E → Unit) : List E × List E × Unit :=
  if res.tag = Tag.Err then ([res.error], [res.error], on_error res.error)
  else ([], [], ())

/-- The correspondence sending the hand-written no-payload specialization
to the generic Result instantiated at the unit success payload (the
comparison the spec's §3 "the algebra is identical, only the Ok payload
is omitted" calls for). -/
def VoidResult.toGeneric {E : Type} (r : VoidResult E) : Result Unit E :=
  if r.tag = Tag.Ok then ResultCpp.Ok () else ResultCpp.Err r.error

/-- The error enum of the repository's test files:
`enum class TestError { A, B }`. -/
inductive TestError : Type where
  | A : TestError
  | B : TestError
deriving DecidableEq

/-- The operations claim C10 lists as required of the no-payload
specialization (constructors given as success/failure, plus the named
combinators and terminals). -/
def specListedOps : List String :=
  ["success", "failure", "map", "map_err", "and_then", "unwrap",
   "unwrap_or", "unwrap_or_else", "match"]

/-- The operations actually declared for `Result<void, E>` across the
repository's header revisions: the constructors `Ok()` / `Err(e)`
(src/result.hpp lines 68-82), the member `map_err` (lines 56-65, and the
README revision's lines 399-415 which adds a member `unwrap`), and the
free overloads `unwrap` (lines 111-118), `unwrap_or` (lines 130-137) and
`unwrap_or_else` (lines 151-159).  No `map`, `and_then` or `match` is
declared for the specialization in any revision. -/
def voidProvidedOps : List String :=
  ["success", "failure", "map_err", "unwrap", "unwrap_or", "unwrap_or_else"]

/-- Claim C1 is false as stated on src/result.hpp: the non-fatal terminal
`unwrap_or` (and likewise `unwrap_or_else`) does invoke
`Display<E>::print` on the Err path — at the concrete input
`unwrap_or(failure(TestError::A), 0)` the print trace is `[TestError.A]`,
not empty. -/
theorem unwrap_or_prints_counterexample :
    unwrap_or (Err TestError.A : Result Nat TestError) 0 =
      some ([TestError.A], 0) ∧
    unwrap_or_else (Err TestError.A : Result Nat TestError) (fun _ => 7) =
      some ([TestError.A], [TestError.A], 7) ∧
    ([TestError.A] : List TestError) ≠ ([] : List TestError) :=
  ⟨rfl, rfl, by decide⟩

/-- Claim C1 (amended): in src/result.hpp the non-fatal terminals
`unwrap_or` and `unwrap_or_else` (both the generic and the no-payload
overloads) invoke `Display<E>::print` exactly once on the Err path,
passing the stored error, before returning; the value they return is
still fully determined by the caller's fallback value or recovery
callback, and on the Ok path nothing is printed.  Neither terminal can
terminate the process (their embedded return types have no exit
outcome). -/
theorem nonfatal_terminals_print_once_on_err
    (T E : Type) (v : T) (e : E) (fb : T) (oe : E → T) (oeu : E → Unit) :
    unwrap_or (Ok v : Result T E) fb = some ([], v) ∧
    unwrap_or (Err e : Result T E) fb = some ([e], fb) ∧
    unwrap_or_else (Ok v : Result T E) oe = some ([], [], v) ∧
    unwrap_or_else (Err e : Result T E) oe = some ([e], [e], oe e) ∧
    VoidResult.unwrap_or (VoidResult.Err e) () = ([e], ()) ∧
    VoidResult.unwrap_or_else (VoidResult.Err e) oeu = ([e], [e], oeu e) :=
  ⟨rfl, rfl, rfl, rfl, rfl, rfl⟩

/-- Claim C2: `unwrap(success(v))` returns v having printed nothing;
`unwrap(failure(e))` passes e to the presentation routine exactly once
(print trace `[e]`) and then exits with the non-zero status 1, and it is
not a returning outcome; the no-payload overload behaves the same way. -/
theorem unwrap_ok_returns_err_prints_once_and_exits
    (T E : Type) (v : T) (e e0 : E) :
    unwrap (Ok v : Result T E) = some (FatalOutcome.ret [] v) ∧
    unwrap (Err e : Result T E) = some (FatalOutcome.exit [e] 1) ∧
    VoidResult.unwrap { tag := Tag.Ok, error := e0 } =
      (FatalOutcome.ret [] () : FatalOutcome Unit E) ∧
    VoidResult.unwrap (VoidResult.Err e) = FatalOutcome.exit [e] 1 ∧
    (1 : Nat) ≠ 0 ∧
    (∀ (prints : List E) (w : T),
      unwrap (Err e : Result T E) ≠ some (FatalOutcome.ret prints w)) := by
  refine ⟨rfl, rfl, rfl, rfl, one_ne_zero, ?_⟩
  intro prints w h
  exact FatalOutcome.noConfusion (Option.some.inj h)

/-- Claim C3: the constructors establish the invariant that the
discriminant identifies the live union member; on any well-formed Result
every operation of the library performs only reads of the live member
(each instrumented operation returns `some`), and every combinator's
output is again well-formed (for `and_then`, granted the caller's
continuation returns well-formed Results). -/
theorem discriminant_guards_every_union_read
    (T E U F P R : Type) (v : T) (e : E) (p : Option P)
    (r : Result T E) (f : T → U) (g : E → F) (k : T → Result U E)
    (fb : T) (oe : E → T) (onOk : T → R) (onErr : E → R)
    (hr : r.wellFormed = true) (hk : ∀ t, (k t).wellFormed = true) :
    (Ok v : Result T E).wellFormed = true ∧
    (Err e : Result T E).wellFormed = true ∧
    (ok_or p e).wellFormed = true ∧
    (∃ out, Result.map r f = some out ∧ (out.2).wellFormed = true) ∧
    (∃ out, Result.map_err r g = some out ∧ (out.2).wellFormed = true) ∧
    (∃ out, Result.and_then r k = some out ∧ (out.2).wellFormed = true) ∧
    (∃ out, unwrap r = some out) ∧
    (∃ out, unwrap_or r fb = some out) ∧
    (∃ out, unwrap_or_else r oe = some out) ∧
    (∃ out, matchR r onOk onErr = some out) := by
  refine ⟨rfl, rfl, ?_, ?_⟩
  · cases p <;> rfl
  obtain ⟨tag, st⟩ := r
  cases tag with
  | Ok =>
    cases st with
    | inl v0 =>
      exact ⟨⟨([v0], Ok (f v0)), rfl, rfl⟩, ⟨([], Ok v0), rfl, rfl⟩,
        ⟨([v0], k v0), rfl, hk v0⟩, ⟨_, rfl⟩, ⟨_, rfl⟩, ⟨_, rfl⟩, ⟨_, rfl⟩⟩
    | inr e0 => simp [Result.wellFormed] at hr
  | Err =>
    cases st with
    | inl v0 => simp [Result.wellFormed] at hr
    | inr e0 =>
      exact ⟨⟨([], Err e0), rfl, rfl⟩, ⟨([e0], Err (g e0)), rfl, rfl⟩,
        ⟨([], Err e0), rfl, rfl⟩, ⟨_, rfl⟩, ⟨_, rfl⟩, ⟨_, rfl⟩, ⟨_, rfl⟩⟩

/-- Concrete instance of the invariant theorem at T = Nat, E = Bool,
r = Ok 1, with both hypotheses discharged. -/
theorem discriminant_guards_every_union_read_witness :
    (Ok 1 : Result Nat Bool).wellFormed = true ∧
    (Err true : Result Nat Bool).wellFormed = true ∧
    (ok_or (some 2) true).wellFormed = true ∧
    (∃ out, Result.map (Ok 1 : Result Nat Bool) (fun t => t + 1) = some out ∧
      (out.2).wellFormed = true) ∧
    (∃ out, Result.map_err (Ok 1 : Result Nat Bool) (fun b => !b) = some out ∧
      (out.2).wellFormed = true) ∧
    (∃ out, Result.and_then (Ok 1 : Result Nat Bool) (fun t => Ok t) = some out ∧
      (out.2).wellFormed = true) ∧
    (∃ out, unwrap (Ok 1 : Result Nat Bool) = some out) ∧
    (∃ out, unwrap_or (Ok 1 : Result Nat Bool) 0 = some out) ∧
    (∃ out, unwrap_or_else (Ok 1 : Result Nat Bool) (fun _ => 5) = some out) ∧
    (∃ out, matchR (Ok 1 : Result Nat Bool) (fun _ => true) (fun _ => false) =
      some out) :=
  discriminant_guards_every_union_read Nat Bool Nat Bool Nat Bool 1 true
    (some 2) (Ok 1) (fun t => t + 1) (fun b => !b) (fun t => Ok t) 0
    (fun _ => 5) (fun _ => true) (fun _ => false) rfl (fun _ => rfl)

/-- Claim C4: `success(v).map(f)` is `success(f(v))` (over U and the
original E), with f invoked once on v; `failure(e).map(f)` is Err
carrying the identical error e, with f never invoked (empty invocation
trace). -/
theorem map_ok_applies_f_err_short_circuits
    (T E U : Type) (v : T) (e : E) (f : T → U) :
    Result.map (Ok v : Result T E) f = some ([v], Ok (f v)) ∧
    Result.map (Err e : Result T E) f = some ([], Err e) :=
  ⟨rfl, rfl⟩

/-- Claim C5: `success(v).and_then(f)` is exactly `f(v)` (left identity
of chaining, one level of nesting flattened); `failure(e).and_then(f)`
never invokes f (empty invocation trace) and yields Err carrying e. -/
theorem and_then_left_identity_and_short_circuit
    (T E U : Type) (v : T) (e : E) (f : T → Result U E) :
    Result.and_then (Ok v : Result T E) f = some ([v], f v) ∧
    Result.and_then (Err e : Result T E) f = some ([], Err e) :=
  ⟨rfl, rfl⟩

/-- Claim C6: `success(v).map_err(g)` is Ok with the identical value v
and g is never invoked (empty invocation trace); `failure(e).map_err(g)`
is Err carrying `g(e)`. -/
theorem map_err_ok_untouched_err_transformed
    (T E F : Type) (v : T) (e : E) (g : E → F) :
    Result.map_err (Ok v : Result T E) g = some ([], Ok v) ∧
    Result.map_err (Err e : Result T E) g = some ([e], Err (g e)) :=
  ⟨rfl, rfl⟩

/-- Claim C7: `unwrap_or(success(v), fallback)` returns v and
`unwrap_or(failure(e), fallback)` returns the caller's fallback; the
returned value is independent of e (the value components at any two
errors agree), and both calls return normally (the embedded return type
has no exit outcome). -/
theorem unwrap_or_value_ok_or_fallback
    (T E : Type) (v : T) (e e' : E) (fb : T) :
    unwrap_or (Ok v : Result T E) fb = some ([], v) ∧
    unwrap_or (Err e : Result T E) fb = some ([e], fb) ∧
    (unwrap_or (Err e : Result T E) fb).map (fun out => out.2) =
      (unwrap_or (Err e' : Result T E) fb).map (fun out => out.2) :=
  ⟨rfl, rfl, rfl⟩

/-- Claim C8: `unwrap_or_else(success(v), recover)` returns v with the
callback never invoked (empty invocation trace);
`unwrap_or_else(failure(e), recover)` invokes recover exactly once, on e,
and returns `recover(e)`; likewise for the no-payload overload. -/
theorem unwrap_or_else_ok_skips_err_invokes_callback
    (T E : Type) (v : T) (e e0 : E) (oe : E → T) (oeu : E → Unit) :
    unwrap_or_else (Ok v : Result T E) oe = some ([], [], v) ∧
    unwrap_or_else (Err e : Result T E) oe = some ([e], [e], oe e) ∧
    VoidResult.unwrap_or_else { tag := Tag.Ok, error := e0 } oeu =
      (([], [], ()) : List E × List E × Unit) ∧
    VoidResult.unwrap_or_else (VoidResult.Err e) oeu = ([e], [e], oeu e) :=
  ⟨rfl, rfl, rfl, rfl⟩

/-- Claim C9: on any well-formed Result, `match` dispatches to exactly one
of its two handlers — on_ok with the success value when the discriminant
is Ok, on_err with the error when it is Err (the other handler's
invocation trace is empty) — and returns that handler's result. -/
theorem match_invokes_exactly_one_handler
    (T E R : Type) (v : T) (e : E) (r : Result T E)
    (onOk : T → R) (onErr : E → R) (hr : r.wellFormed = true) :
    matchR (Ok v : Result T E) onOk onErr = some ([v], [], onOk v) ∧
    matchR (Err e : Result T E) onOk onErr = some ([], [e], onErr e) ∧
    ((∃ v0, r = Ok v0 ∧ matchR r onOk onErr = some ([v0], [], onOk v0)) ∨
     (∃ e0, r = Err e0 ∧ matchR r onOk onErr = some ([], [e0], onErr e0))) := by
  refine ⟨rfl, rfl, ?_⟩
  obtain ⟨tag, st⟩ := r
  cases tag with
  | Ok =>
    cases st with
    | inl v0 => exact Or.inl ⟨v0, rfl, rfl⟩
    | inr e0 => simp [Result.wellFormed] at hr
  | Err =>
    cases st with
    | inl v0 => simp [Result.wellFormed] at hr
    | inr e0 => exact Or.inr ⟨e0, rfl, rfl⟩

/-- Concrete instance of the match theorem at r = Ok 3 over Nat and
TestError, with the well-formedness hypothesis discharged. -/
theorem match_invokes_exactly_one_handler_witness :
    matchR (Ok 3 : Result Nat TestError) (fun n => n) (fun _ => 0) =
      some ([3], [], 3) ∧
    matchR (Err TestError.A : Result Nat TestError) (fun n => n) (fun _ => 0) =
      some ([], [TestError.A], 0) ∧
    ((∃ v0, (Ok 3 : Result Nat TestError) = Ok v0 ∧
        matchR (Ok 3 : Result Nat TestError) (fun n => n) (fun _ => 0) =
          some ([v0], [], v0)) ∨
     (∃ e0, (Ok 3 : Result Nat TestError) = Err e0 ∧
        matchR (Ok 3 : Result Nat TestError) (fun n => n) (fun _ => 0) =
          some ([], [e0], 0))) :=
  match_invokes_exactly_one_handler Nat TestError Nat 3 TestError.A (Ok 3)
    (fun n => n) (fun _ => 0) rfl

/-- Claim C10 is false as stated: of the operations it lists as existing
for the no-payload specialization, `map`, `and_then` and `match` are not
declared for `Result<void, E>` in any revision of the header. -/
theorem void_specialization_lacks_map_and_then :
    "map" ∈ specListedOps ∧ "map" ∉ voidProvidedOps ∧
    "and_then" ∈ specListedOps ∧ "and_then" ∉ voidProvidedOps ∧
    "match" ∈ specListedOps ∧ "match" ∉ voidProvidedOps := by
  decide

/-- Claim C10 (amended): the operations the no-payload specialization does
provide — the constructors, map_err, unwrap, unwrap_or and unwrap_or_else
— each behave identically to the generic Result instantiated at the unit
success payload, under the correspondence `toGeneric`; in particular its
map_err sends Ok to Ok and `Err e` to `Err (f e)` with the same
invocation trace as the generic map_err. -/
theorem void_specialization_matches_generic_on_provided_ops
    (E F : Type) [Inhabited F] (e : E) (r : VoidResult E)
    (f : E → F) (oeu : E → Unit) :
    (∀ e0 : E, VoidResult.toGeneric { tag := Tag.Ok, error := e0 } =
      (Ok () : Result Unit E)) ∧
    VoidResult.toGeneric (VoidResult.Err e) = (Err e : Result Unit E) ∧
    Result.map_err (r.toGeneric) f =
      some ((r.map_err f).1, (r.map_err f).2.toGeneric) ∧
    unwrap (r.toGeneric) = some (r.unwrap) ∧
    unwrap_or (r.toGeneric) () = some (r.unwrap_or ()) ∧
    unwrap_or_else (r.toGeneric) oeu = some (r.unwrap_or_else oeu) := by
  obtain ⟨tag, er⟩ := r
  cases tag with
  | Ok => exact ⟨fun _ => rfl, rfl, rfl, rfl, rfl, rfl⟩
  | Err => exact ⟨fun _ => rfl, rfl, rfl, rfl, rfl, rfl⟩

end ResultCpp
